import Mathlib

set_option maxHeartbeats 1000000
set_option maxRecDepth 100000

namespace Transcendence

/-!
Shallow embedding of `scripts/compile-contract.py`: a build-time utility that
compiles one Solidity contract and writes a TypeScript configuration file
holding the contract's ABI and bytecode.  External effects (the solc binary,
pip, the filesystem, the `solcx` binding) are modelled by explicit environment
records whose fields record the outcome each external call would have; the
script's own control flow and string manipulation are translated directly.
-/

/-- Fixed configuration value `CONTRACT_FILE` from the script. -/
def CONTRACT_FILE : String := "contracts/PongTournamentScores.sol"

/-- Fixed configuration value `OUTPUT_FILE` from the script. -/
def OUTPUT_FILE : String := "src/blockchain/contractConfig.ts"

/-- Fixed configuration value `BUILD_DIR` from the script. -/
def BUILD_DIR : String := "build"

/-- Value of `os.path.dirname(OUTPUT_FILE)`, the parent directory the script
creates before writing the output file. -/
def OUTPUT_DIR : String := "src/blockchain"

/-- Python whitespace predicate used by `str.strip()` (ASCII range). -/
def isPyWs (c : Char) : Bool :=
  c = ' ' || c = '\t' || c = '\n' || c = '\r' || c = '\x0b' || c = '\x0c'

/-- Embedding of Python `str.strip()` on a character list: remove leading and
trailing whitespace, keep interior characters untouched. -/
def pyStripList (l : List Char) : List Char :=
  ((l.dropWhile isPyWs).reverse.dropWhile isPyWs).reverse

/-- Embedding of Python `str.strip()` on strings. -/
def pyStrip (s : String) : String :=
  String.mk (pyStripList s.data)

/-- Decidable check that the first list is an initial segment of the second. -/
def seqLeads : List Char → List Char → Bool
  | [], _ => true
  | _ :: _, [] => false
  | a :: as, b :: bs => (a = b) && seqLeads as bs

/-- Decidable check that `pat` occurs contiguously inside the second list;
this embeds Python's `in` test on strings. -/
def seqHas (pat : List Char) : List Char → Bool
  | [] => pat.isEmpty
  | c :: t => seqLeads pat (c :: t) || seqHas pat t

/-- Python `pat in s` on strings. -/
def containsSub (s pat : String) : Bool := seqHas pat.data s.data

/- JSON values, the shape of the ABI data the compiler returns.  Mutual
inductives (instead of a nested `List`) keep all recursion structural. -/
mutual

inductive Json where
  | null : Json
  | bool (b : Bool) : Json
  | num (n : Int) : Json
  | str (s : String) : Json
  | arr (xs : JsonList) : Json
  | obj (fs : JsonFields) : Json

inductive JsonList where
  | nil : JsonList
  | cons (x : Json) (t : JsonList) : JsonList

inductive JsonFields where
  | nil : JsonFields
  | cons (k : String) (v : Json) (t : JsonFields) : JsonFields

end

/-- Hexadecimal digit character, lowercase, as Python's %04x formatting. -/
def hexDigit (n : Nat) : Char :=
  if n < 10 then Char.ofNat (48 + n) else Char.ofNat (87 + n)

/-- Four-digit lowercase hexadecimal rendering used by JSON \u escapes. -/
def hex4 (n : Nat) : String :=
  String.mk [hexDigit (n / 4096 % 16), hexDigit (n / 256 % 16),
    hexDigit (n / 16 % 16), hexDigit (n % 16)]

/-- Escaping of one character by Python `json.dumps` (default
`ensure_ascii=True`): the short escapes, \uXXXX for other control and non-ASCII
characters, surrogate pairs beyond the BMP. -/
def escChar (c : Char) : String :=
  if c = '\\' then "\\\\"
  else if c = '"' then "\\\""
  else if c = '\x08' then "\\b"
  else if c = '\x0c' then "\\f"
  else if c = '\n' then "\\n"
  else if c = '\r' then "\\r"
  else if c = '\t' then "\\t"
  else if c.toNat < 32 then "\\u" ++ hex4 c.toNat
  else if c.toNat < 127 then String.mk [c]
  else if c.toNat < 65536 then "\\u" ++ hex4 c.toNat
  else "\\u" ++ hex4 (55296 + (c.toNat - 65536) / 1024)
    ++ "\\u" ++ hex4 (56320 + (c.toNat - 65536) % 1024)

/-- JSON string literal rendering, quotes included. -/
def escString (s : String) : String :=
  "\"" ++ String.join (s.data.map escChar) ++ "\""

/-- Indentation: `n` space characters. -/
def spaces (n : Nat) : String := String.mk (List.replicate n ' ')

/- Embedding of Python `json.dumps(value, indent=4)`.  With an indent the
item separator is ",\n" plus indentation and the key separator is ": ";
empty containers print with no inner newline.  `dumpList`/`dumpFields`
render the comma-separated indented items of a non-empty container. -/
mutual

def dumpJson : Nat → Json → String
  | _, .null => "null"
  | _, .bool true => "true"
  | _, .bool false => "false"
  | _, .num n => toString n
  | _, .str s => escString s
  | _, .arr .nil => "[]"
  | lvl, .arr (.cons x xs) =>
      "[\n" ++ dumpList (lvl + 1) (.cons x xs) ++ "\n" ++ spaces (4 * lvl) ++ "]"
  | _, .obj .nil => "\x7b\x7d"
  | lvl, .obj (.cons k v fs) =>
      "\x7b\n" ++ dumpFields (lvl + 1) (.cons k v fs) ++ "\n" ++ spaces (4 * lvl) ++ "\x7d"

def dumpList : Nat → JsonList → String
  | _, .nil => ""
  | lvl, .cons x .nil => spaces (4 * lvl) ++ dumpJson lvl x
  | lvl, .cons x (.cons y ys) =>
      spaces (4 * lvl) ++ dumpJson lvl x ++ ",\n" ++ dumpList lvl (.cons y ys)

def dumpFields : Nat → JsonFields → String
  | _, .nil => ""
  | lvl, .cons k v .nil => spaces (4 * lvl) ++ escString k ++ ": " ++ dumpJson lvl v
  | lvl, .cons k v (.cons k2 v2 fs) =>
      spaces (4 * lvl) ++ escString k ++ ": " ++ dumpJson lvl v ++ ",\n"
        ++ dumpFields lvl (.cons k2 v2 fs)

end

/-- Top-level call `json.dumps(abi, indent=4)` as it appears in the script. -/
def jsonDumps (j : Json) : String := dumpJson 0 j

/-- Python truthiness of a JSON value (`not abi` in the script): None, False,
zero, and empty containers and strings are falsy. -/
def Json.truthy : Json → Bool
  | .null => false
  | .bool b => b
  | .num n => n != 0
  | .str s => s != ""
  | .arr .nil => false
  | .arr (.cons _ _) => true
  | .obj .nil => false
  | .obj (.cons _ _ _) => true

/-- One entry of the mapping returned by `solcx.compile_files`: the fields the
script reads (`contract['abi']`, `contract['bin']`). -/
structure ContractData where
  abi : Json
  bin : String

/-- Outcome environment for `ensure_solc_installed` / `install_solc`:
whether each external call would succeed. -/
structure SolcEnv where
  solcVersionOk : Bool
  pipInstallOk : Bool
  solcxInstallOk : Bool

/-- Embedding of `install_solc`: the pip installation and the solcx
install/set-version calls; any raised error is caught and yields `False`. -/
def install_solc (env : SolcEnv) : Bool :=
  if env.pipInstallOk = false then false
  else if env.solcxInstallOk = false then false
  else true

/-- Embedding of `ensure_solc_installed`: `solc --version` succeeding yields
`True`; otherwise remediation via `install_solc`. -/
def ensure_solc_installed (env : SolcEnv) : Bool :=
  if env.solcVersionOk then true else install_solc env

/-- Outcome environment for `compile_with_system_solc`: results of the
external calls it makes.  `abiFile`/`binFile` are `none` when the compiler
did not emit the file; `abiFile`'s payload is the outcome of `json.load`
(`Except.error` when the file exists but parsing raises). -/
structure FallbackEnv where
  makedirsOk : Bool
  solcRunOk : Bool
  abiFile : Option (Except String Json)
  binFile : Option String

/-- Message raised when the compiled output lacks the target contract. -/
def contractNotFoundMsg : String :=
  "Контракт PongTournamentScores не найден в скомпилированных файлах"

/-- Message raised in the fallback when expected output files are absent. -/
def filesNotFoundMsg : String := "Скомпилированные файлы не найдены"

/-- Body of the `try` block of `compile_with_system_solc`: create the build
directory, run solc, check the two expected output files exist, `json.load`
the .abi file, and return the .bin content stripped and 0x-prefixed. -/
def fallbackBody (env : FallbackEnv) : Except String (Json × String) :=
  if env.makedirsOk = false then .error "os.makedirs raised"
  else if env.solcRunOk = false then .error "CalledProcessError: solc"
  else
    match env.abiFile, env.binFile with
    | some abiRes, some binText =>
        (match abiRes with
          | .error msg => .error msg
          | .ok abi => .ok (abi, "0x" ++ pyStrip binText))
    | _, _ => .error filesNotFoundMsg

/-- Embedding of `compile_with_system_solc`: any exception in the body is
caught, printed, and converted to the pair `(None, None)`. -/
def compile_with_system_solc (env : FallbackEnv) : Option Json × Option String :=
  match fallbackBody env with
  | .ok (a, b) => (some a, some b)
  | .error _ => (none, none)

/-- Exceptions distinguished by `compile_contract`'s handlers: `ImportError`
versus every other `Exception`. -/
inductive BindingErr where
  | impErr : BindingErr
  | exc (msg : String) : BindingErr

/-- Outcome environment for `compile_contract`: whether `from solcx import
compile_files` succeeds, the result (or raised error) of `compile_files`,
and the environment of the fallback it may invoke.  The association list
models the returned dict; its order is the dict's iteration order. -/
structure CompileEnv where
  solcxImportable : Bool
  compileFiles : Except String (List (String × ContractData))
  fallback : FallbackEnv

/-- Test applied to each key of the compiled mapping:
`"PongTournamentScores" in key`. -/
def keyMatch (kv : String × ContractData) : Bool :=
  containsSub kv.1 "PongTournamentScores"

/-- Body of the `try` block of `compile_contract`: import the binding, run
`compile_files`, take the first key containing the contract name (raising if
none), and return the entry's abi with its bin prefixed by "0x".  (In the
source the loop finds the first matching key and the dict is then indexed by
that key; as dict keys are unique this is the first matching entry.) -/
def bindingBody (env : CompileEnv) : Except BindingErr (Json × String) :=
  if env.solcxImportable = false then .error .impErr
  else
    match env.compileFiles with
    | .error msg => .error (.exc msg)
    | .ok compiled =>
        match compiled.find? keyMatch with
        | none => .error (.exc contractNotFoundMsg)
        | some kv => .ok (kv.2.abi, "0x" ++ kv.2.bin)

/-- Embedding of `compile_contract`: `except ImportError` invokes the
fallback and returns its result; `except Exception` prints the message and
returns `(None, None)`. -/
def compile_contract (env : CompileEnv) : Option Json × Option String :=
  match bindingBody env with
  | .ok (a, b) => (some a, some b)
  | .error .impErr => compile_with_system_solc env.fallback
  | .error (.exc _) => (none, none)

/-- Filesystem state the script mutates: directories known to exist and file
contents by path (most recent write first). -/
structure FS where
  dirs : List String
  files : List (String × String)

/-- Content of the file at `p`, if one has been written. -/
def fileContent (fs : FS) (p : String) : Option String :=
  (fs.files.find? (fun kv => kv.1 == p)).map (fun kv => kv.2)

/-- Record a directory as existing. -/
def addDir (fs : FS) (d : String) : FS := { fs with dirs := d :: fs.dirs }

/-- Record a file write. -/
def writeFileFS (fs : FS) (p c : String) : FS := { fs with files := (p, c) :: fs.files }

/-- Outcome environment for the I/O of `generate_typescript_config`: whether
`os.makedirs` would raise (possible only when the directory is absent, since
`exist_ok=True` makes it a no-op otherwise) and whether the write would raise. -/
structure IOEnv where
  mkdirFails : Bool
  writeFails : Bool

/-- The f-string `content` of `generate_typescript_config`, split at its
interpolation and line boundaries. -/
def genContent (abi : Json) (bytecode : String) : String :=
  "// Автоматически сгенерировано из " ++ CONTRACT_FILE ++ "\n" ++
  "// Не редактируйте этот файл вручную - используйте npm run compile-contract\n" ++
  "\n" ++
  "export const PongTournamentScoresABI = " ++ jsonDumps abi ++ ";\n" ++
  "\n" ++
  "export const PongTournamentScoresBytecode = \"" ++ bytecode ++ "\";\n"

/-- Embedding of `generate_typescript_config`: build the content, create the
output file's parent directory (`exist_ok=True`), write the file; any
exception is caught, printed, and yields `False`. -/
def generate_typescript_config (io : IOEnv) (fs : FS) (abi : Json) (bytecode : String) :
    Bool × FS :=
  let content := genContent abi bytecode
  if fs.dirs.contains OUTPUT_DIR then
    if io.writeFails then (false, fs)
    else (true, writeFileFS fs OUTPUT_FILE content)
  else if io.mkdirFails then (false, fs)
  else
    let fs1 := addDir fs OUTPUT_DIR
    if io.writeFails then (false, fs1)
    else (true, writeFileFS fs1 OUTPUT_FILE content)

/-- Python truthiness of the `abi` variable in `main` (which is either the
compiled ABI or `None`). -/
def optJsonTruthy : Option Json → Bool
  | none => false
  | some j => j.truthy

/-- Python truthiness of the `bytecode` variable in `main`. -/
def optStrTruthy : Option String → Bool
  | none => false
  | some s => s != ""

/-- Full environment of one run of the script. -/
structure MainEnv where
  contractFileExists : Bool
  solc : SolcEnv
  compile : CompileEnv
  io : IOEnv
  fs : FS

/-- Observable outcome of one run: the process exit code, which pipeline
steps were invoked, and the final filesystem state. -/
structure RunResult where
  exitCode : Nat
  ranAvailability : Bool
  ranCompilation : Bool
  ranGeneration : Bool
  fs : FS

/-- Embedding of `main`: check the contract source exists, ensure solc,
compile, guard `if not abi or not bytecode`, and generate the TypeScript
configuration.  `sys.exit(1)` is exit code 1; falling off the end is 0.
(The `getD` defaults are never used: the truthiness guard has already
ruled out `none`.) -/
def main (env : MainEnv) : RunResult :=
  if env.contractFileExists = false then
    { exitCode := 1, ranAvailability := false, ranCompilation := false,
      ranGeneration := false, fs := env.fs }
  else if ensure_solc_installed env.solc = false then
    { exitCode := 1, ranAvailability := true, ranCompilation := false,
      ranGeneration := false, fs := env.fs }
  else
    let r := compile_contract env.compile
    if optJsonTruthy r.1 = false ∨ optStrTruthy r.2 = false then
      { exitCode := 1, ranAvailability := true, ranCompilation := true,
        ranGeneration := false, fs := env.fs }
    else
      let a := r.1.getD Json.null
      let b := r.2.getD ""
      let g := generate_typescript_config env.io env.fs a b
      { exitCode := if g.1 then 0 else 1, ranAvailability := true,
        ranCompilation := true, ranGeneration := true, fs := g.2 }

/-- Spec-side operation for the round-trip property: remove the two-character
"0x" prefix from the written bytecode literal. -/
def strip0x (s : String) : String := String.mk (s.data.drop 2)

/-- Spec-side decomposition of the generated file, first piece: the header
comment block noting the file is auto-generated from the contract source and
must not be hand-edited. -/
def headerBlock : String :=
  "// Автоматически сгенерировано из " ++ CONTRACT_FILE ++ "\n" ++
  "// Не редактируйте этот файл вручную - используйте npm run compile-contract\n"

/-- Spec-side decomposition, second piece: the single exported constant
holding the interface description pretty-printed. -/
def abiBinding (abi : Json) : String :=
  "export const PongTournamentScoresABI = " ++ jsonDumps abi ++ ";\n"

/-- Spec-side decomposition, third piece: the single exported constant
holding the bytecode as a quoted string literal. -/
def bytecodeBinding (bc : String) : String :=
  "export const PongTournamentScoresBytecode = \"" ++ bc ++ "\";\n"

/-- Small non-empty ABI used in concrete runs. -/
def sampleAbi : Json := Json.arr (.cons (.str "transfer") .nil)

/-- Compiled data of the target contract in concrete runs. -/
def sampleData : ContractData := { abi := sampleAbi, bin := "6080" }

/-- Compiled data of an unrelated contract in concrete runs. -/
def otherData : ContractData := { abi := Json.arr .nil, bin := "9999" }

/-- Compiled data of a second matching contract in concrete runs. -/
def thirdData : ContractData := { abi := Json.null, bin := "7777" }

/-- Concrete `compile_files` result with one non-matching entry followed by
two entries whose keys contain the contract name. -/
def sampleCompiled : List (String × ContractData) :=
  [("contracts/Other.sol:Other", otherData),
   ("contracts/PongTournamentScores.sol:PongTournamentScores", sampleData),
   ("contracts/PongTournamentScores.sol:PongTournamentScoresV2", thirdData)]

/-- Fallback environment in which every external call succeeds. -/
def okFallbackEnv : FallbackEnv :=
  { makedirsOk := true, solcRunOk := true,
    abiFile := some (.ok sampleAbi),
    binFile := some "6080abcd\n" }

/-- Compile environment where the binding imports but `compile_files`
raises a non-import error, while the fallback would succeed. -/
def excCompileEnv : CompileEnv :=
  { solcxImportable := true, compileFiles := .error "SolcError: bad pragma",
    fallback := okFallbackEnv }

/-- Compile environment where the `solcx` import itself fails. -/
def importFailEnv : CompileEnv :=
  { solcxImportable := false, compileFiles := .error "unused",
    fallback := okFallbackEnv }

/-- Compile environment taking the binding path successfully. -/
def bindingOkEnv : CompileEnv :=
  { solcxImportable := true, compileFiles := .ok sampleCompiled,
    fallback := okFallbackEnv }

/-- Compile environment whose compiled mapping has no matching key. -/
def noMatchEnv : CompileEnv :=
  { solcxImportable := true,
    compileFiles := .ok [("contracts/Other.sol:Other", otherData)],
    fallback := okFallbackEnv }

/-- I/O environment where both filesystem operations succeed. -/
def okIOEnv : IOEnv := { mkdirFails := false, writeFails := false }

/-- Empty initial filesystem. -/
def emptyFS : FS := { dirs := [], files := [] }

/-- Main environment of a fully successful run. -/
def okMainEnv : MainEnv :=
  { contractFileExists := true,
    solc := { solcVersionOk := true, pipInstallOk := true, solcxInstallOk := true },
    compile := bindingOkEnv,
    io := okIOEnv,
    fs := emptyFS }

/-- Main environment whose contract source file is missing. -/
def missingSourceEnv : MainEnv := { okMainEnv with contractFileExists := false }

/-- Main environment whose compilation step fails, returning `(None, None)`. -/
def failedCompileMainEnv : MainEnv := { okMainEnv with compile := excCompileEnv }

/-- Fallback environment whose emitted .bin file contains interior whitespace
as well as surrounding whitespace. -/
def wsBinFallbackEnv : FallbackEnv :=
  { makedirsOk := true, solcRunOk := true,
    abiFile := some (.ok sampleAbi),
    binFile := some " 6080 abcd \n" }

/-! Helper lemmas. -/

theorem strData_append (s t : String) : (s ++ t).data = s.data ++ t.data := by
  cases s
  cases t
  rfl

theorem strMk_data (s : String) : String.mk s.data = s := by
  cases s
  rfl

theorem strip0x_prepend (r : String) : strip0x ("0x" ++ r) = r := by
  cases r
  rfl

theorem find_first_split {α : Type} (p : α → Bool) (l : List α) (a : α)
    (h : l.find? p = some a) :
    ∃ pre post, l = pre ++ a :: post ∧ ∀ x ∈ pre, p x = false := by
  induction l with
  | nil => simp [List.find?] at h
  | cons c t ih =>
      by_cases hc : p c
      · rw [List.find?_cons_of_pos _ hc] at h
        cases h
        exact ⟨[], t, rfl, by simp⟩
      · rw [List.find?_cons_of_neg _ (by simpa using hc)] at h
        obtain ⟨pre, post, hl, hpre⟩ := ih h
        refine ⟨c :: pre, post, by simp [hl], ?_⟩
        intro x hx
        rcases List.mem_cons.mp hx with hx | hx
        · subst hx; simpa using hc
        · exact hpre x hx

theorem head_dropWhile_all (p : Char → Bool) (l : List Char) :
    ((l.dropWhile p).head?.all (fun c => !p c)) = true := by
  induction l with
  | nil => rfl
  | cons c t ih =>
      by_cases hc : p c
      · simpa [List.dropWhile_cons, hc] using ih
      · simp [List.dropWhile_cons, hc]

theorem getLast_dropWhile_ne (p : Char → Bool) (l : List Char)
    (h : l.dropWhile p ≠ []) : (l.dropWhile p).getLast? = l.getLast? := by
  induction l with
  | nil => simp at h
  | cons c t ih =>
      by_cases hc : p c
      · rw [List.dropWhile_cons, if_pos hc] at h ⊢
        cases ht : t with
        | nil => subst ht; simp at h
        | cons x xs =>
            subst ht
            rw [ih h, List.getLast?_cons_cons]
      · rw [List.dropWhile_cons, if_neg hc]

theorem pyStripList_no_edge_ws (l : List Char) :
    ((pyStripList l).head?.all (fun c => !isPyWs c)) = true ∧
    ((pyStripList l).getLast?.all (fun c => !isPyWs c)) = true := by
  unfold pyStripList
  constructor
  · rw [List.head?_reverse]
    by_cases hne : (l.dropWhile isPyWs).reverse.dropWhile isPyWs = []
    · simp [hne]
    · rw [getLast_dropWhile_ne _ _ hne, List.getLast?_reverse]
      exact head_dropWhile_all isPyWs l
  · rw [List.getLast?_reverse]
    exact head_dropWhile_all isPyWs (l.dropWhile isPyWs).reverse

theorem generate_success_content (io : IOEnv) (fs : FS) (a : Json) (b : String)
    (h : (generate_typescript_config io fs a b).1 = true) :
    fileContent (generate_typescript_config io fs a b).2 OUTPUT_FILE
      = some (genContent a b) := by
  unfold generate_typescript_config at h ⊢
  by_cases hd : fs.dirs.contains OUTPUT_DIR <;>
    by_cases hw : io.writeFails <;>
    by_cases hm : io.mkdirFails <;>
    simp_all [fileContent, writeFileFS, addDir, List.find?]

theorem main_success_shape (env : MainEnv) (h : (main env).exitCode = 0) :
    ∃ a b, compile_contract env.compile = (some a, some b) ∧
      a.truthy = true ∧ b ≠ "" ∧
      (generate_typescript_config env.io env.fs a b).1 = true ∧
      (main env).fs = (generate_typescript_config env.io env.fs a b).2 ∧
      (main env).ranGeneration = true := by
  cases hcf : env.contractFileExists
  · simp [main, hcf] at h
  · cases hsolc : ensure_solc_installed env.solc
    · simp [main, hcf, hsolc] at h
    · rcases hc : compile_contract env.compile with ⟨a?, b?⟩
      cases a? with
      | none => simp [main, hcf, hsolc, hc, optJsonTruthy] at h
      | some a =>
          cases b? with
          | none => simp [main, hcf, hsolc, hc, optJsonTruthy, optStrTruthy] at h
          | some b =>
              cases hta : a.truthy
              · simp [main, hcf, hsolc, hc, optJsonTruthy, hta] at h
              · by_cases hbe : b = ""
                · subst hbe
                  simp [main, hcf, hsolc, hc, optJsonTruthy, optStrTruthy, hta] at h
                · cases hg : (generate_typescript_config env.io env.fs a b).1
                  · simp [main, hcf, hsolc, hc, optJsonTruthy, optStrTruthy,
                      hta, hbe, hg] at h
                  · refine ⟨a, b, rfl, hta, hbe, hg, ?_, ?_⟩ <;>
                      simp [main, hcf, hsolc, hc, optJsonTruthy, optStrTruthy,
                        hta, hbe, hg]

/-! Claim theorems. -/

/-- Claim C3: if the fixed contract source file does not exist, `main` exits
with a non-zero status without invoking the availability check, the
compilation step, or the artifact-generation step, and the filesystem is
left untouched. -/
theorem c3_missing_source_exits_early (env : MainEnv)
    (h : env.contractFileExists = false) :
    (main env).exitCode = 1 ∧
    (main env).ranAvailability = false ∧
    (main env).ranCompilation = false ∧
    (main env).ranGeneration = false ∧
    (main env).fs = env.fs := by
  simp [main, h]

/-- Witness for C3 at a concrete environment with the source file missing. -/
theorem c3_missing_source_exits_early_witness :
    missingSourceEnv.contractFileExists = false ∧
    ((main missingSourceEnv).exitCode = 1 ∧
     (main missingSourceEnv).ranAvailability = false ∧
     (main missingSourceEnv).ranCompilation = false ∧
     (main missingSourceEnv).ranGeneration = false ∧
     (main missingSourceEnv).fs = missingSourceEnv.fs) :=
  ⟨rfl, c3_missing_source_exits_early missingSourceEnv rfl⟩

/-- Claim C4: if the compilation step returns an empty or null interface
description, or an empty or null bytecode string (in particular when both
are null), `main` exits non-zero before `generate_typescript_config` is
called and no output file is written. -/
theorem c4_falsy_compile_exits_before_write (env : MainEnv)
    (h1 : env.contractFileExists = true)
    (h2 : ensure_solc_installed env.solc = true)
    (h3 : optJsonTruthy (compile_contract env.compile).1 = false ∨
          optStrTruthy (compile_contract env.compile).2 = false) :
    (main env).exitCode = 1 ∧
    (main env).ranGeneration = false ∧
    (main env).fs = env.fs := by
  simp [main, h1, h2, h3]

/-- Witness for C4 at a concrete environment whose compilation step returns
the pair of nulls. -/
theorem c4_falsy_compile_exits_before_write_witness :
    failedCompileMainEnv.contractFileExists = true ∧
    ensure_solc_installed failedCompileMainEnv.solc = true ∧
    compile_contract failedCompileMainEnv.compile = (none, none) ∧
    ((main failedCompileMainEnv).exitCode = 1 ∧
     (main failedCompileMainEnv).ranGeneration = false ∧
     (main failedCompileMainEnv).fs = failedCompileMainEnv.fs) :=
  ⟨rfl, rfl, rfl,
    c4_falsy_compile_exits_before_write failedCompileMainEnv rfl rfl (Or.inl rfl)⟩

/-- Counterexample to claim C1 as stated: in this environment the in-process
binding path raises a non-import error while the subprocess fallback would
succeed, yet `compile_contract` returns the failure pair `(None, None)`
without falling back — the run fails even though the fallback would not. -/
theorem c1_counterexample :
    (compile_contract excCompileEnv).2 = none ∧
    (compile_with_system_solc excCompileEnv.fallback).2 = some "0x6080abcd" ∧
    compile_contract excCompileEnv ≠ compile_with_system_solc excCompileEnv.fallback := by
  refine ⟨rfl, rfl, ?_⟩
  intro hcontra
  have hx : (none : Option String) = some "0x6080abcd" := by
    calc (none : Option String) = (compile_contract excCompileEnv).2 := rfl
    _ = (compile_with_system_solc excCompileEnv.fallback).2 := by rw [hcontra]
    _ = some "0x6080abcd" := rfl
  exact Option.noConfusion hx

/-- Claim C1 (amended): the compilation step falls back to the subprocess
path exactly when the binding path raises an import error (the binding being
unavailable) — in that case the run's result is the fallback's result, so it
fails only if the fallback fails — while any other error raised on the
binding path yields `(None, None)` directly, without invoking the fallback. -/
theorem c1_fallback_only_on_import_error (env : CompileEnv) :
    (env.solcxImportable = false →
      compile_contract env = compile_with_system_solc env.fallback) ∧
    (∀ msg, env.solcxImportable = true → env.compileFiles = .error msg →
      compile_contract env = (none, none)) := by
  constructor
  · intro h
    simp [compile_contract, bindingBody, h]
  · intro msg h1 h2
    simp [compile_contract, bindingBody, h1, h2]

/-- Witness for the amended C1: the import-error environment falls back, and
the non-import-error environment returns the failure pair. -/
theorem c1_fallback_only_on_import_error_witness :
    importFailEnv.solcxImportable = false ∧
    compile_contract importFailEnv = compile_with_system_solc importFailEnv.fallback ∧
    excCompileEnv.solcxImportable = true ∧
    excCompileEnv.compileFiles = .error "SolcError: bad pragma" ∧
    compile_contract excCompileEnv = (none, none) :=
  ⟨rfl, (c1_fallback_only_on_import_error importFailEnv).1 rfl, rfl, rfl,
    (c1_fallback_only_on_import_error excCompileEnv).2 "SolcError: bad pragma" rfl rfl⟩

/-- Claim C6: on the binding path `compile_contract` selects the first entry
(in iteration order) whose key contains the substring "PongTournamentScores"
and returns its abi and 0x-prefixed bin; if no key contains the substring,
the binding body raises the contract-not-found error and the step produces
no result (the failure pair). -/
theorem c6_first_matching_key (env : CompileEnv)
    (compiled : List (String × ContractData))
    (h1 : env.solcxImportable = true)
    (h2 : env.compileFiles = .ok compiled) :
    (∀ kv, compiled.find? keyMatch = some kv →
      compile_contract env = (some kv.2.abi, some ("0x" ++ kv.2.bin)) ∧
      ∃ pre post, compiled = pre ++ kv :: post ∧ ∀ x ∈ pre, keyMatch x = false) ∧
    ((∀ kv ∈ compiled, keyMatch kv = false) →
      bindingBody env = .error (.exc contractNotFoundMsg) ∧
      compile_contract env = (none, none)) := by
  constructor
  · intro kv hkv
    refine ⟨by simp [compile_contract, bindingBody, h1, h2, hkv], ?_⟩
    exact find_first_split keyMatch compiled kv hkv
  · intro hall
    have hnone : compiled.find? keyMatch = none :=
      List.find?_eq_none.mpr (fun x hx => by simp [hall x hx])
    have hbb : bindingBody env = .error (.exc contractNotFoundMsg) := by
      simp [bindingBody, h1, h2, hnone]
    exact ⟨hbb, by simp [compile_contract, hbb]⟩

/-- Witness for C6: in a mapping whose first entry does not match, the
second (first matching) entry is selected; with no matching entry the step
returns the failure pair. -/
theorem c6_first_matching_key_witness :
    sampleCompiled.find? keyMatch =
      some ("contracts/PongTournamentScores.sol:PongTournamentScores", sampleData) ∧
    compile_contract bindingOkEnv = (some sampleData.abi, some ("0x" ++ sampleData.bin)) ∧
    compile_contract noMatchEnv = (none, none) :=
  ⟨rfl,
   ((c6_first_matching_key bindingOkEnv sampleCompiled rfl rfl).1 _ rfl).1,
   ((c6_first_matching_key noMatchEnv [("contracts/Other.sol:Other", otherData)]
      rfl rfl).2 (by decide)).2⟩

/-- Claim C7: the compilation step is total and never propagates an
exception: it always returns a pair — a full success or `(None, None)` —
and any error raised inside the binding path (other than the import error
that routes to the fallback) or inside the fallback path is converted into
`(None, None)`. -/
theorem c7_compilation_never_raises (env : CompileEnv) :
    (compile_contract env = (none, none) ∨
      ∃ a b, compile_contract env = (some a, some b)) ∧
    (∀ msg, bindingBody env = .error (.exc msg) →
      compile_contract env = (none, none)) ∧
    (∀ fenv msg, fallbackBody fenv = .error msg →
      compile_with_system_solc fenv = (none, none)) := by
  refine ⟨?_, ?_, ?_⟩
  · cases hb : bindingBody env with
    | ok ab =>
        obtain ⟨a, b⟩ := ab
        exact Or.inr ⟨a, b, by simp [compile_contract, hb]⟩
    | error e =>
        cases e with
        | exc m => exact Or.inl (by simp [compile_contract, hb])
        | impErr =>
            cases hf : fallbackBody env.fallback with
            | ok ab =>
                obtain ⟨a, b⟩ := ab
                exact Or.inr ⟨a, b, by
                  simp [compile_contract, hb, compile_with_system_solc, hf]⟩
            | error m =>
                exact Or.inl (by
                  simp [compile_contract, hb, compile_with_system_solc, hf])
  · intro msg hmsg
    simp [compile_contract, hmsg]
  · intro fenv msg hmsg
    simp [compile_with_system_solc, hmsg]

/-- Witness for C7: a binding-path error and a fallback-path error each
concretely produce the failure pair. -/
theorem c7_compilation_never_raises_witness :
    compile_contract excCompileEnv = (none, none) ∧
    compile_with_system_solc { okFallbackEnv with solcRunOk := false } = (none, none) :=
  ⟨(c7_compilation_never_raises excCompileEnv).2.1 "SolcError: bad pragma" rfl,
   (c7_compilation_never_raises excCompileEnv).2.2
     { okFallbackEnv with solcRunOk := false } "CalledProcessError: solc" rfl⟩

/-- Claim C8: `generate_typescript_config` creates the output file's parent
directory if it is missing, returns a boolean success indicator (true
exactly when neither I/O operation fails), and converts every I/O exception
during directory creation or file writing into a `false` return instead of
raising; on success the directory exists and the file holds the generated
content, and on failure no file content is committed. -/
theorem c8_generate_io_behavior (io : IOEnv) (fs : FS) (abi : Json) (bc : String) :
    ((generate_typescript_config io fs abi bc).1 =
      ((fs.dirs.contains OUTPUT_DIR || !io.mkdirFails) && !io.writeFails)) ∧
    (fs.dirs.contains OUTPUT_DIR = false → io.mkdirFails = false →
      (generate_typescript_config io fs abi bc).2.dirs.contains OUTPUT_DIR = true) ∧
    ((generate_typescript_config io fs abi bc).1 = true →
      (generate_typescript_config io fs abi bc).2.dirs.contains OUTPUT_DIR = true ∧
      fileContent (generate_typescript_config io fs abi bc).2 OUTPUT_FILE =
        some (genContent abi bc)) ∧
    ((generate_typescript_config io fs abi bc).1 = false →
      fileContent (generate_typescript_config io fs abi bc).2 OUTPUT_FILE =
        fileContent fs OUTPUT_FILE) := by
  refine ⟨?_, ?_, ?_, ?_⟩ <;>
    by_cases hd : fs.dirs.contains OUTPUT_DIR <;>
    by_cases hw : io.writeFails <;>
    by_cases hm : io.mkdirFails <;>
    simp_all [generate_typescript_config, fileContent, writeFileFS, addDir, List.find?]

/-- Witness for C8: with a missing parent directory and no I/O failure the
call succeeds, the directory is created, and the file holds the content. -/
theorem c8_generate_io_behavior_witness :
    emptyFS.dirs.contains OUTPUT_DIR = false ∧
    (generate_typescript_config okIOEnv emptyFS sampleAbi "0x6080").1 = true ∧
    (generate_typescript_config okIOEnv emptyFS sampleAbi "0x6080").2.dirs.contains
      OUTPUT_DIR = true ∧
    fileContent (generate_typescript_config okIOEnv emptyFS sampleAbi "0x6080").2
      OUTPUT_FILE = some (genContent sampleAbi "0x6080") := by
  refine ⟨rfl, rfl, ?_, ?_⟩
  · exact (c8_generate_io_behavior okIOEnv emptyFS sampleAbi "0x6080").2.1 rfl rfl
  · exact ((c8_generate_io_behavior okIOEnv emptyFS sampleAbi "0x6080").2.2.1 rfl).2

/-- Counterexample to claim C10 as stated: this successful fallback run reads
a .bin file with interior whitespace, and the returned bytecode string still
contains whitespace — `strip()` removes only surrounding whitespace. -/
theorem c10_counterexample :
    (compile_with_system_solc wsBinFallbackEnv).2 = some "0x6080 abcd" ∧
    "0x6080 abcd".data.any isPyWs = true := ⟨rfl, rfl⟩

/-- Claim C10 (amended): on the subprocess fallback path, the bytecode read
from the compiler-emitted .bin file has surrounding whitespace (including
any trailing newline) removed before the "0x" prefix is added, so for every
successful fallback run the returned bytecode has no leading or trailing
whitespace after the prefix; it contains no whitespace at all only when the
stripped file content has no interior whitespace, which `strip()` keeps. -/
theorem c10_strip_surrounding_ws (env : FallbackEnv) (a : Json) (b : String)
    (h : compile_with_system_solc env = (some a, some b)) :
    ∃ binText, env.binFile = some binText ∧
      b = "0x" ++ pyStrip binText ∧
      ((pyStrip binText).data.head?.all (fun c => !isPyWs c)) = true ∧
      ((pyStrip binText).data.getLast?.all (fun c => !isPyWs c)) = true ∧
      ((pyStrip binText).data.all (fun c => !isPyWs c) = true →
        b.data.all (fun c => !isPyWs c) = true) := by
  unfold compile_with_system_solc at h
  cases hf : fallbackBody env with
  | error m => rw [hf] at h; simp at h
  | ok ab =>
      rw [hf] at h
      obtain ⟨a2, b2⟩ := ab
      simp only [Prod.mk.injEq, Option.some.injEq] at h
      obtain ⟨ha, hb⟩ := h
      unfold fallbackBody at hf
      by_cases hm : env.makedirsOk = false
      · simp [hm] at hf
      · by_cases hs : env.solcRunOk = false
        · simp [hm, hs] at hf
        · rcases habi : env.abiFile with _ | abiRes
          · simp [hm, hs, habi] at hf
          · rcases hbin : env.binFile with _ | binText
            · simp [hm, hs, habi, hbin] at hf
            · rcases habr : abiRes with msg | abi
              · simp [hm, hs, habi, hbin, habr] at hf
              · simp only [hm, hs, habi, hbin, habr, if_false, Bool.false_eq_true,
                  if_neg, Except.ok.injEq, Prod.mk.injEq] at hf
                have hb2 : b2 = "0x" ++ pyStrip binText := by
                  cases hf2 : env.makedirsOk <;> cases hf3 : env.solcRunOk <;>
                    simp_all
                refine ⟨binText, rfl, by rw [← hb, hb2], ?_, ?_, ?_⟩
                · exact (pyStripList_no_edge_ws binText.data).1
                · exact (pyStripList_no_edge_ws binText.data).2
                · intro hall
                  rw [← hb, hb2]
                  rw [strData_append]
                  rw [List.all_append]
                  simp [hall]
                  decide

/-- Witness for the amended C10 at a concrete environment whose .bin file
carries surrounding and interior whitespace. -/
theorem c10_strip_surrounding_ws_witness :
    compile_with_system_solc wsBinFallbackEnv = (some sampleAbi, some "0x6080 abcd") ∧
    (∃ binText, wsBinFallbackEnv.binFile = some binText ∧
      "0x6080 abcd" = "0x" ++ pyStrip binText ∧
      ((pyStrip binText).data.head?.all (fun c => !isPyWs c)) = true ∧
      ((pyStrip binText).data.getLast?.all (fun c => !isPyWs c)) = true ∧
      ((pyStrip binText).data.all (fun c => !isPyWs c) = true →
        "0x6080 abcd".data.all (fun c => !isPyWs c) = true)) :=
  ⟨rfl, c10_strip_surrounding_ws wsBinFallbackEnv sampleAbi "0x6080 abcd" rfl⟩

theorem strAppend_assoc (a b c : String) : (a ++ b) ++ c = a ++ (b ++ c) := by
  cases a with
  | mk la =>
      cases b with
      | mk lb =>
          cases c with
          | mk lc =>
              show String.mk ((la ++ lb) ++ lc) = String.mk (la ++ (lb ++ lc))
              rw [List.append_assoc]

/-- Counterexample to claim C2 as stated: with a non-empty ABI and the
non-empty bytecode string "ab", the generated content's bytecode constant
holds the literal "ab"; the two characters "0x" occur nowhere in the
content, so it contains no exported constant whose string literal is
prefixed with "0x". -/
theorem c2_counterexample :
    genContent sampleAbi "ab" =
      "// Автоматически сгенерировано из contracts/PongTournamentScores.sol\n// Не редактируйте этот файл вручную - используйте npm run compile-contract\n\nexport const PongTournamentScoresABI = [\n    \"transfer\"\n];\n\nexport const PongTournamentScoresBytecode = \"ab\";\n" ∧
    containsSub (genContent sampleAbi "ab") "0x" = false ∧
    sampleAbi.truthy = true ∧ "ab" ≠ "" := by
  refine ⟨rfl, rfl, rfl, ?_⟩
  decide

/-- Claim C2 (amended): the content written for a non-empty abi and a
non-empty bytecode is exactly a header comment block, a blank line, one
exported constant holding the abi pretty-printed, a blank line, and one
exported constant holding the bytecode verbatim as a quoted string literal —
nothing else; the literal is prefixed with "0x" exactly when the bytecode
argument itself starts with "0x", which is how the compilation step always
produces it. -/
theorem c2_generated_content_shape (abi : Json) (bc : String)
    (_h1 : abi.truthy = true) (_h2 : bc ≠ "") :
    genContent abi bc =
      headerBlock ++ "\n" ++ abiBinding abi ++ "\n" ++ bytecodeBinding bc ∧
    (∀ r, bc = "0x" ++ r →
      bytecodeBinding bc =
        "export const PongTournamentScoresBytecode = \"0x" ++ r ++ "\";\n") := by
  constructor
  · unfold genContent headerBlock abiBinding bytecodeBinding
    simp only [strAppend_assoc]
  · intro r hr
    subst hr
    unfold bytecodeBinding
    rfl

/-- Witness for the amended C2 at a concrete abi and a 0x-prefixed
bytecode. -/
theorem c2_generated_content_shape_witness :
    sampleAbi.truthy = true ∧ "0x6080" ≠ "" ∧
    (genContent sampleAbi "0x6080" =
      headerBlock ++ "\n" ++ abiBinding sampleAbi ++ "\n" ++ bytecodeBinding "0x6080" ∧
    (∀ r, "0x6080" = "0x" ++ r →
      bytecodeBinding "0x6080" =
        "export const PongTournamentScoresBytecode = \"0x" ++ r ++ "\";\n")) :=
  ⟨rfl, by decide, c2_generated_content_shape sampleAbi "0x6080" rfl (by decide)⟩

theorem compile_success_shape (env : CompileEnv) (a : Json) (b : String)
    (h : compile_contract env = (some a, some b)) :
    ∃ raw, b = "0x" ++ raw ∧
      ((∃ compiled kv, env.compileFiles = .ok compiled ∧
          compiled.find? keyMatch = some kv ∧ a = kv.2.abi ∧ raw = kv.2.bin) ∨
       (∃ binText, env.fallback.binFile = some binText ∧ raw = pyStrip binText)) := by
  unfold compile_contract at h
  cases hb : bindingBody env with
  | ok ab =>
      rw [hb] at h
      obtain ⟨a2, b2⟩ := ab
      simp only [Prod.mk.injEq, Option.some.injEq] at h
      obtain ⟨ha, hbe⟩ := h
      unfold bindingBody at hb
      by_cases him : env.solcxImportable = false
      · simp [him] at hb
      · rcases hcf : env.compileFiles with msg | compiled
        · simp [him, hcf] at hb
        · rcases hfind : compiled.find? keyMatch with _ | kv
          · simp [him, hcf, hfind] at hb
          · simp only [him, hcf, hfind, if_neg] at hb
            have hb' : a2 = kv.2.abi ∧ b2 = "0x" ++ kv.2.bin := by
              cases hbool : env.solcxImportable <;> simp_all
            exact ⟨kv.2.bin, by rw [← hbe, hb'.2],
              Or.inl ⟨compiled, kv, rfl, hfind, by rw [← ha, hb'.1], rfl⟩⟩
  | error e =>
      cases e with
      | exc m => rw [hb] at h; simp at h
      | impErr =>
          rw [hb] at h
          unfold compile_with_system_solc at h
          cases hf : fallbackBody env.fallback with
          | error m => rw [hf] at h; simp at h
          | ok ab =>
              rw [hf] at h
              obtain ⟨a2, b2⟩ := ab
              simp only [Prod.mk.injEq, Option.some.injEq] at h
              obtain ⟨ha, hbe⟩ := h
              unfold fallbackBody at hf
              by_cases hm : env.fallback.makedirsOk = false
              · simp [hm] at hf
              · by_cases hs : env.fallback.solcRunOk = false
                · simp [hm, hs] at hf
                · rcases habi : env.fallback.abiFile with _ | abiRes
                  · simp [hm, hs, habi] at hf
                  · rcases hbin : env.fallback.binFile with _ | binText
                    · simp [hm, hs, habi, hbin] at hf
                    · rcases habr : abiRes with msg | abi
                      · simp [hm, hs, habi, hbin, habr] at hf
                      · have hb' : b2 = "0x" ++ pyStrip binText := by
                          cases h1 : env.fallback.makedirsOk <;>
                            cases h2 : env.fallback.solcRunOk <;> simp_all
                        exact ⟨pyStrip binText, by rw [← hbe, hb'],
                          Or.inr ⟨binText, rfl, rfl⟩⟩

/-- Claim C5 (round-trip): for every successful run, the bytecode string
literal written to the output file is the "0x"-prefixed raw bytecode
produced by the compilation step, and stripping the "0x" prefix from it
recovers exactly that raw bytecode — the bin entry of the selected contract
on the binding path, or the stripped .bin file content on the fallback
path. -/
theorem c5_bytecode_roundtrip (env : MainEnv) (h : (main env).exitCode = 0) :
    ∃ a raw, compile_contract env.compile = (some a, some ("0x" ++ raw)) ∧
      fileContent (main env).fs OUTPUT_FILE = some (genContent a ("0x" ++ raw)) ∧
      strip0x ("0x" ++ raw) = raw ∧
      ((∃ compiled kv, env.compile.compileFiles = .ok compiled ∧
          compiled.find? keyMatch = some kv ∧ raw = kv.2.bin) ∨
       (∃ binText, env.compile.fallback.binFile = some binText ∧
          raw = pyStrip binText)) := by
  obtain ⟨a, b, hc, hta, hbe, hg, hfs, _⟩ := main_success_shape env h
  obtain ⟨raw, hraw, horigin⟩ := compile_success_shape env.compile a b hc
  subst hraw
  refine ⟨a, raw, hc, ?_, strip0x_prepend raw, ?_⟩
  · rw [hfs]
    exact generate_success_content env.io env.fs a _ hg
  · rcases horigin with ⟨compiled, kv, o1, o2, _, o4⟩ | ⟨binText, o1, o2⟩
    · exact Or.inl ⟨compiled, kv, o1, o2, o4⟩
    · exact Or.inr ⟨binText, o1, o2⟩

/-- Witness for C5 at a concrete fully successful run. -/
theorem c5_bytecode_roundtrip_witness :
    (main okMainEnv).exitCode = 0 ∧
    (∃ a raw, compile_contract okMainEnv.compile = (some a, some ("0x" ++ raw)) ∧
      fileContent (main okMainEnv).fs OUTPUT_FILE = some (genContent a ("0x" ++ raw)) ∧
      strip0x ("0x" ++ raw) = raw ∧
      ((∃ compiled kv, okMainEnv.compile.compileFiles = .ok compiled ∧
          compiled.find? keyMatch = some kv ∧ raw = kv.2.bin) ∨
       (∃ binText, okMainEnv.compile.fallback.binFile = some binText ∧
          raw = pyStrip binText))) :=
  ⟨rfl, c5_bytecode_roundtrip okMainEnv rfl⟩

/-- Claim C9: for a fixed compilation outcome the pipeline is deterministic —
two successful runs whose compilation environments agree write byte-for-byte
identical file content (the interface-description constant included), and
`generate_typescript_config` writes identical content on identical
`(abi, bytecode)` arguments regardless of the surrounding I/O environment. -/
theorem c9_deterministic_output (e1 e2 : MainEnv)
    (hc : e1.compile = e2.compile)
    (h1 : (main e1).exitCode = 0) (h2 : (main e2).exitCode = 0) :
    fileContent (main e1).fs OUTPUT_FILE = fileContent (main e2).fs OUTPUT_FILE ∧
    (∀ io io2 fs fs2 a bc,
      (generate_typescript_config io fs a bc).1 = true →
      (generate_typescript_config io2 fs2 a bc).1 = true →
      fileContent (generate_typescript_config io fs a bc).2 OUTPUT_FILE =
        fileContent (generate_typescript_config io2 fs2 a bc).2 OUTPUT_FILE) := by
  constructor
  · obtain ⟨a1, b1, hc1, _, _, hg1, hfs1, _⟩ := main_success_shape e1 h1
    obtain ⟨a2, b2, hc2, _, _, hg2, hfs2, _⟩ := main_success_shape e2 h2
    rw [hc] at hc1
    have heq := hc1.symm.trans hc2
    simp only [Prod.mk.injEq, Option.some.injEq] at heq
    obtain ⟨ha, hb⟩ := heq
    rw [hfs1, hfs2, generate_success_content e1.io e1.fs a1 b1 hg1,
      generate_success_content e2.io e2.fs a2 b2 hg2, ha, hb]
  · intro io io2 fs fs2 a bc hga hgb
    rw [generate_success_content io fs a bc hga,
      generate_success_content io2 fs2 a bc hgb]

/-- Witness for C9 at two (identical) concrete successful runs. -/
theorem c9_deterministic_output_witness :
    (main okMainEnv).exitCode = 0 ∧
    fileContent (main okMainEnv).fs OUTPUT_FILE =
      fileContent (main okMainEnv).fs OUTPUT_FILE :=
  ⟨rfl, (c9_deterministic_output okMainEnv okMainEnv rfl rfl rfl).1⟩

end Transcendence
